import Mathlib

/-!
Verification of the in-memory ledger store of the bank API
(internal/db/memory/db.go) and its transaction orchestrator
(internal/service, Transfer).

Modelling choices:
* Go maps are embedded as association lists with replace-or-append
  insertion (faithful to `m[k] = v`) and first-match lookup.
* Monetary amounts (`float64` in Go, "decimal" in the data model) are
  embedded as exact rationals.
* Methods on the store receiver are state-passing functions
  `DB → ... → DB × result`: a method that returns an error before any
  write returns the incoming state unchanged, exactly as the Go code
  leaves the receiver untouched on those paths.
* Fresh UUIDs and timestamps generated inside the orchestrator become
  explicit parameters.
-/

namespace Bank

/-- Transaction type enum: a string type in the Go source (internal/enum). -/
abbrev TransactionType := String

/-- enum.Deposit -/
def Deposit : TransactionType := "deposit"

/-- enum.Withdrawal -/
def Withdrawal : TransactionType := "withdrawal"

/-- models.Account -/
structure Account where
  ID : String
  Owner : String
  Balance : ℚ
deriving DecidableEq, Repr

/-- models.Transaction (timestamp is opaque, embedded as a natural number). -/
structure Transaction where
  ID : String
  AccountID : String
  type : TransactionType
  Amount : ℚ
  Timestamp : Nat
deriving DecidableEq, Repr

/-- api_errors.APIError -/
structure APIError where
  Code : String
  Message : String
  HTTPStatus : Nat
deriving DecidableEq, Repr

/-- api_errors.ErrAccountNotFound -/
def ErrAccountNotFound : APIError :=
  ⟨"ACCOUNT_NOT_FOUND", "account not found", 400⟩

/-- api_errors.ErrInsufficientBalance -/
def ErrInsufficientBalance : APIError :=
  ⟨"INSUFFICIENT_BALANCE", "insufficient balance", 400⟩

/-- api_errors.ErrUnknown -/
def ErrUnknown : APIError :=
  ⟨"UNKNOWN", "unknown error", 500⟩

/-- Lookup in a Go map embedded as an association list. -/
def getKV (k : String) : List (String × α) → Option α
  | [] => none
  | (k1, v1) :: rest => if k1 = k then some v1 else getKV k rest

/-- `m[k] = v` on a Go map embedded as an association list. -/
def setKV (k : String) (v : α) : List (String × α) → List (String × α)
  | [] => [(k, v)]
  | (k1, v1) :: rest => if k1 = k then (k, v) :: rest else (k1, v1) :: setKV k v rest

/-- The store state: the two maps of inMemoryDatabase. -/
structure DB where
  accounts : List (String × Account)
  transactions : List (String × List Transaction)
deriving DecidableEq, Repr

/-- memory.CreateAccount: stores the account and initializes an empty
transaction slice for it. The Go method has no error return. -/
def CreateAccount (db : DB) (account : Account) : DB :=
  { accounts := setKV account.ID account db.accounts,
    transactions := setKV account.ID [] db.transactions }

/-- memory.GetAccountByID (a pure read: it takes only the read lock and
performs no write, so it does not change the store). -/
def GetAccountByID (db : DB) (id : String) : DB × Except APIError Account :=
  (db,
    match getKV id db.accounts with
    | some acc => Except.ok acc
    | none => Except.error ErrAccountNotFound)

/-- memory.CreateTransaction: look up the account, apply the mutation by
transaction type, then persist the balance and append the transaction.
Error returns happen before any write, so they carry the incoming state. -/
def CreateTransaction (db : DB) (tx : Transaction) : DB × Option APIError :=
  match getKV tx.AccountID db.accounts with
  | none => (db, some ErrAccountNotFound)
  | some account =>
    if tx.type = Deposit then
      let account1 := { account with Balance := account.Balance + tx.Amount }
      ({ accounts := setKV tx.AccountID account1 db.accounts,
         transactions :=
           setKV tx.AccountID ((getKV tx.AccountID db.transactions).getD [] ++ [tx])
             db.transactions }, none)
    else if tx.type = Withdrawal then
      if account.Balance < tx.Amount then (db, some ErrInsufficientBalance)
      else
        let account1 := { account with Balance := account.Balance - tx.Amount }
        ({ accounts := setKV tx.AccountID account1 db.accounts,
           transactions :=
             setKV tx.AccountID ((getKV tx.AccountID db.transactions).getD [] ++ [tx])
               db.transactions }, none)
    else (db, some ErrUnknown)

/-- memory.GetTransactionsByAccountID (pure read, state unchanged). -/
def GetTransactionsByAccountID (db : DB) (id : String) :
    DB × Except APIError (List Transaction) :=
  (db,
    match getKV id db.transactions with
    | some txs => Except.ok txs
    | none => Except.error ErrAccountNotFound)

/-- service.Transfer: a Withdrawal transaction against `fromId`, then a
Deposit transaction against `toId`, each built with its own generated id
and timestamp (passed here as parameters); the first error aborts. -/
def Transfer (db : DB) (fromId toId : String) (amount : ℚ)
    (wId dId : String) (wTs dTs : Nat) : DB × Option APIError :=
  let withdrawalFrom : Transaction := ⟨wId, fromId, Withdrawal, amount, wTs⟩
  let r1 := CreateTransaction db withdrawalFrom
  match r1.2 with
  | some e => (r1.1, some e)
  | none =>
    let depositTo : Transaction := ⟨dId, toId, Deposit, amount, dTs⟩
    let r2 := CreateTransaction r1.1 depositTo
    match r2.2 with
    | some e => (r2.1, some e)
    | none => (r2.1, none)

/-- Apply a sequence of CreateTransaction calls; returns the final state
and the subsequence of transactions that were committed (succeeded). -/
def runAll : DB → List Transaction → DB × List Transaction
  | db, [] => (db, [])
  | db, tx :: rest =>
    let r1 := CreateTransaction db tx
    let r2 := runAll r1.1 rest
    (r2.1, if r1.2 = none then tx :: r2.2 else r2.2)

/-- The balance the store records for account `id`, when it exists. -/
def balanceOf (db : DB) (id : String) : Option ℚ :=
  (getKV id db.accounts).map Account.Balance

/-- The transaction history the store records for account `id`
(empty when the key is absent, as Go append-to-nil behaves). -/
def histOf (db : DB) (id : String) : List Transaction :=
  (getKV id db.transactions).getD []

/-- Signed contribution of one transaction to a balance. -/
def txDelta (tx : Transaction) : ℚ :=
  if tx.type = Deposit then tx.Amount
  else if tx.type = Withdrawal then -tx.Amount else 0

/-- Sum of the amounts of the Deposit transactions for `id` in a list. -/
def sumDeposits (id : String) (l : List Transaction) : ℚ :=
  ((l.filter (fun t => t.AccountID == id && t.type == Deposit)).map Transaction.Amount).sum

/-- Sum of the amounts of the Withdrawal transactions for `id` in a list. -/
def sumWithdrawals (id : String) (l : List Transaction) : ℚ :=
  ((l.filter (fun t => t.AccountID == id && t.type == Withdrawal)).map Transaction.Amount).sum

theorem getKV_setKV_same (k : String) (v : α) (l : List (String × α)) :
    getKV k (setKV k v l) = some v := by
  induction l with
  | nil => simp [getKV, setKV]
  | cons p rest ih =>
    obtain ⟨k1, v1⟩ := p
    by_cases h : k1 = k
    · simp [getKV, setKV, h]
    · simp [getKV, setKV, h, ih]

theorem getKV_setKV_ne (k k0 : String) (v : α) (l : List (String × α))
    (h : k0 ≠ k) : getKV k0 (setKV k v l) = getKV k0 l := by
  have hks : ¬ k = k0 := fun hh => h hh.symm
  induction l with
  | nil => simp [getKV, setKV, hks]
  | cons p rest ih =>
    obtain ⟨k1, v1⟩ := p
    by_cases h1 : k1 = k
    · subst h1
      simp [getKV, setKV, hks]
    · by_cases h2 : k1 = k0
      · simp [getKV, setKV, h1, h2, h]
      · simp [getKV, setKV, h1, h2, ih]

/-- Net signed contribution of a list of transactions to account `id`. -/
def netOf (id : String) (l : List Transaction) : ℚ :=
  ((l.filter (fun t => t.AccountID == id)).map txDelta).sum

theorem ct_error_state (db : DB) (tx : Transaction) (e : APIError)
    (h : (CreateTransaction db tx).2 = some e) : (CreateTransaction db tx).1 = db := by
  unfold CreateTransaction at h ⊢
  cases hacc : getKV tx.AccountID db.accounts with
  | none => simp [hacc]
  | some account =>
    simp only [hacc] at h ⊢
    by_cases h1 : tx.type = Deposit
    · simp [h1] at h
    · simp only [h1, if_false] at h ⊢
      by_cases h2 : tx.type = Withdrawal
      · simp only [h2, if_true] at h ⊢
        by_cases h3 : account.Balance < tx.Amount
        · simp [h3]
        · simp [h3] at h
      · simp [h2]

theorem ct_ok_type (db : DB) (tx : Transaction)
    (hok : (CreateTransaction db tx).2 = none) :
    tx.type = Deposit ∨ tx.type = Withdrawal := by
  by_cases h1 : tx.type = Deposit
  · exact Or.inl h1
  · by_cases h2 : tx.type = Withdrawal
    · exact Or.inr h2
    · exfalso
      unfold CreateTransaction at hok
      cases hacc : getKV tx.AccountID db.accounts with
      | none => simp [hacc] at hok
      | some account => simp [hacc, h1, h2] at hok

theorem ct_ok_balance (db : DB) (tx : Transaction) (id : String) (b : ℚ)
    (hok : (CreateTransaction db tx).2 = none) (hb : balanceOf db id = some b) :
    balanceOf (CreateTransaction db tx).1 id =
      some (b + if tx.AccountID = id then txDelta tx else 0) := by
  unfold CreateTransaction at hok ⊢
  cases hacc : getKV tx.AccountID db.accounts with
  | none => simp [hacc] at hok
  | some account =>
    simp only [hacc] at hok ⊢
    by_cases h1 : tx.type = Deposit
    · simp only [h1, if_true] at hok ⊢
      by_cases hid : tx.AccountID = id
      · subst hid
        have hbal : account.Balance = b := by
          simp [balanceOf, hacc] at hb
          exact hb
        simp [balanceOf, getKV_setKV_same, txDelta, h1, hbal]
      · have hne : id ≠ tx.AccountID := fun hh => hid hh.symm
        simp [balanceOf, getKV_setKV_ne _ _ _ _ hne, hid]
        simpa [balanceOf] using hb
    · simp only [h1, if_false] at hok ⊢
      by_cases h2 : tx.type = Withdrawal
      · simp only [h2, if_true] at hok ⊢
        by_cases h3 : account.Balance < tx.Amount
        · simp [h3] at hok
        · simp only [h3, if_false] at hok ⊢
          by_cases hid : tx.AccountID = id
          · subst hid
            have hbal : account.Balance = b := by
              simp [balanceOf, hacc] at hb
              exact hb
            have hwd : ¬ Withdrawal = Deposit := by decide
            simp [balanceOf, getKV_setKV_same, txDelta, h1, h2, hbal, hwd]
            ring
          · have hne : id ≠ tx.AccountID := fun hh => hid hh.symm
            simp [balanceOf, getKV_setKV_ne _ _ _ _ hne, hid]
            simpa [balanceOf] using hb
      · simp [h2] at hok

theorem ct_ok_withdraw_le (db : DB) (tx : Transaction) (b : ℚ)
    (hok : (CreateTransaction db tx).2 = none) (h2 : tx.type = Withdrawal)
    (hb : balanceOf db tx.AccountID = some b) : tx.Amount ≤ b := by
  have hwd : ¬ Withdrawal = Deposit := by decide
  unfold CreateTransaction at hok
  cases hacc : getKV tx.AccountID db.accounts with
  | none => simp [hacc] at hok
  | some account =>
    simp only [hacc, h2, hwd, if_false, ite_false] at hok
    by_cases h3 : account.Balance < tx.Amount
    · simp [h3, hwd] at hok
    · have hbal : account.Balance = b := by
        simp [balanceOf, hacc] at hb
        exact hb
      rw [hbal] at h3
      exact le_of_not_lt h3

theorem ct_ok_txkey (db : DB) (tx : Transaction) (id : String) (l : List Transaction)
    (hok : (CreateTransaction db tx).2 = none) (h : getKV id db.transactions = some l) :
    getKV id ((CreateTransaction db tx).1).transactions =
      some (l ++ if tx.AccountID = id then [tx] else []) := by
  unfold CreateTransaction at hok ⊢
  cases hacc : getKV tx.AccountID db.accounts with
  | none => simp [hacc] at hok
  | some account =>
    simp only [hacc] at hok ⊢
    have step : ∀ a : List (String × Account),
        getKV id (setKV tx.AccountID ((getKV tx.AccountID db.transactions).getD [] ++ [tx])
          db.transactions) = some (l ++ if tx.AccountID = id then [tx] else []) := by
      intro a
      by_cases hid : tx.AccountID = id
      · subst hid
        rw [h]
        simp [getKV_setKV_same]
      · have hne : id ≠ tx.AccountID := fun hh => hid hh.symm
        simp [getKV_setKV_ne _ _ _ _ hne, hid, h]
    by_cases h1 : tx.type = Deposit
    · simpa [h1] using step db.accounts
    · simp only [h1, if_false] at hok ⊢
      by_cases h2 : tx.type = Withdrawal
      · simp only [h2, if_true] at hok ⊢
        by_cases h3 : account.Balance < tx.Amount
        · simp [h3] at hok
        · simpa [h3] using step db.accounts
      · simp [h2] at hok

theorem txDelta_deposit (tx : Transaction) (h : tx.type = Deposit) :
    txDelta tx = tx.Amount := by
  simp [txDelta, h]

theorem txDelta_withdrawal (tx : Transaction) (h : tx.type = Withdrawal) :
    txDelta tx = -tx.Amount := by
  have hwd : ¬ Withdrawal = Deposit := by decide
  simp [txDelta, h, hwd]

theorem netOf_cons (id : String) (t : Transaction) (l : List Transaction) :
    netOf id (t :: l) = (if t.AccountID = id then txDelta t else 0) + netOf id l := by
  by_cases h : t.AccountID = id
  · simp [netOf, List.filter_cons, h]
  · simp [netOf, List.filter_cons, h]

theorem sumDeposits_cons (id : String) (t : Transaction) (l : List Transaction) :
    sumDeposits id (t :: l) =
      (if t.AccountID = id ∧ t.type = Deposit then t.Amount else 0) + sumDeposits id l := by
  by_cases h1 : t.AccountID = id
  · by_cases h2 : t.type = Deposit
    · simp [sumDeposits, List.filter_cons, h1, h2]
    · simp [sumDeposits, List.filter_cons, h1, h2]
  · simp [sumDeposits, List.filter_cons, h1]

theorem sumWithdrawals_cons (id : String) (t : Transaction) (l : List Transaction) :
    sumWithdrawals id (t :: l) =
      (if t.AccountID = id ∧ t.type = Withdrawal then t.Amount else 0) +
        sumWithdrawals id l := by
  by_cases h1 : t.AccountID = id
  · by_cases h2 : t.type = Withdrawal
    · simp [sumWithdrawals, List.filter_cons, h1, h2]
    · simp [sumWithdrawals, List.filter_cons, h1, h2]
  · simp [sumWithdrawals, List.filter_cons, h1]

theorem netOf_eq (id : String) (l : List Transaction) :
    netOf id l = sumDeposits id l - sumWithdrawals id l := by
  induction l with
  | nil => simp [netOf, sumDeposits, sumWithdrawals]
  | cons t rest ih =>
    rw [netOf_cons, sumDeposits_cons, sumWithdrawals_cons, ih]
    by_cases h1 : t.AccountID = id
    · by_cases h2 : t.type = Deposit
      · have h3 : ¬ t.type = Withdrawal := by rw [h2]; decide
        have hdw : ¬ Deposit = Withdrawal := by decide
        rw [txDelta_deposit t h2]
        simp only [h1, h2, h3, hdw, true_and, and_false, if_true, if_false, ite_true,
          ite_false]
        ring
      · by_cases h3 : t.type = Withdrawal
        · have hwd : ¬ Withdrawal = Deposit := by decide
          rw [txDelta_withdrawal t h3]
          simp only [h1, h2, h3, hwd, true_and, and_false, if_true, if_false, ite_true,
            ite_false]
          ring
        · simp only [txDelta, h1, h2, h3, true_and, if_true, if_false, ite_true, ite_false]
          ring
    · simp only [h1, false_and, if_false, ite_false]
      ring

theorem runAll_balance (id : String) (txs : List Transaction) :
    ∀ (db : DB) (b : ℚ), balanceOf db id = some b →
      balanceOf (runAll db txs).1 id = some (b + netOf id (runAll db txs).2) := by
  induction txs with
  | nil =>
    intro db b hb
    simpa [runAll, netOf] using hb
  | cons tx rest ih =>
    intro db b hb
    cases hok : (CreateTransaction db tx).2 with
    | none =>
      have hb1 := ct_ok_balance db tx id b hok hb
      have h2 := ih (CreateTransaction db tx).1 _ hb1
      simp only [runAll, hok, if_pos rfl, ite_true]
      rw [h2, netOf_cons]
      congr 1
      ring
    | some e =>
      have hst := ct_error_state db tx e hok
      simp only [runAll, hok]
      rw [hst]
      simpa using ih db b hb

theorem runAll_txkey (id : String) (txs : List Transaction) :
    ∀ (db : DB) (l : List Transaction), getKV id db.transactions = some l →
      getKV id ((runAll db txs).1).transactions =
        some (l ++ (runAll db txs).2.filter (fun t => t.AccountID == id)) := by
  induction txs with
  | nil =>
    intro db l h
    simpa [runAll] using h
  | cons tx rest ih =>
    intro db l h
    cases hok : (CreateTransaction db tx).2 with
    | none =>
      have h1 := ct_ok_txkey db tx id l hok h
      have h2 := ih (CreateTransaction db tx).1 _ h1
      simp only [runAll, hok, ite_true]
      rw [h2]
      congr 1
      rw [List.append_assoc, List.filter_cons]
      by_cases hid : tx.AccountID = id
      · simp [hid]
      · simp [hid]
    | some e =>
      have hst := ct_error_state db tx e hok
      simp only [runAll, hok]
      rw [hst]
      simpa using ih db l h

theorem runAll_nonneg (id : String) (txs : List Transaction) :
    ∀ (db : DB) (b : ℚ), balanceOf db id = some b → 0 ≤ b →
      (∀ tx ∈ txs, 0 < tx.Amount) →
      ∀ b1, balanceOf (runAll db txs).1 id = some b1 → 0 ≤ b1 := by
  induction txs with
  | nil =>
    intro db b hb h0 hpos b1 hb1
    simp only [runAll] at hb1
    rw [hb] at hb1
    cases hb1
    exact h0
  | cons tx rest ih =>
    intro db b hb h0 hpos b1 hb1
    have hpos1 : ∀ t ∈ rest, 0 < t.Amount := fun t ht => hpos t (List.mem_cons_of_mem tx ht)
    cases hok : (CreateTransaction db tx).2 with
    | none =>
      have hb2 := ct_ok_balance db tx id b hok hb
      have h02 : 0 ≤ b + if tx.AccountID = id then txDelta tx else 0 := by
        by_cases hid : tx.AccountID = id
        · cases ct_ok_type db tx hok with
          | inl hd =>
            rw [if_pos hid, txDelta_deposit tx hd]
            have := hpos tx (List.mem_cons_self tx rest)
            linarith
          | inr hw =>
            have hble : tx.Amount ≤ b := by
              apply ct_ok_withdraw_le db tx b hok hw
              rw [hid]
              exact hb
            rw [if_pos hid, txDelta_withdrawal tx hw]
            linarith
        · rw [if_neg hid]
          linarith
      apply ih (CreateTransaction db tx).1 _ hb2 h02 hpos1 b1
      simpa [runAll, hok] using hb1
    | some e =>
      have hst := ct_error_state db tx e hok
      apply ih db b hb h0 hpos1 b1
      simp only [runAll, hok] at hb1
      rw [hst] at hb1
      simpa using hb1

theorem ct_deposit_ok (db : DB) (tx : Transaction) (acc : Account)
    (hacc : getKV tx.AccountID db.accounts = some acc) (ht : tx.type = Deposit) :
    (CreateTransaction db tx).2 = none := by
  unfold CreateTransaction
  simp [hacc, ht]

theorem ct_withdraw_ok (db : DB) (tx : Transaction) (acc : Account)
    (hacc : getKV tx.AccountID db.accounts = some acc) (ht : tx.type = Withdrawal)
    (hle : tx.Amount ≤ acc.Balance) : (CreateTransaction db tx).2 = none := by
  have hwd : ¬ Withdrawal = Deposit := by decide
  unfold CreateTransaction
  simp [hacc, ht, hwd, not_lt.mpr hle]

theorem ct_accounts_other (db : DB) (tx : Transaction) (id : String)
    (hne : id ≠ tx.AccountID) :
    getKV id ((CreateTransaction db tx).1).accounts = getKV id db.accounts := by
  unfold CreateTransaction
  cases hacc : getKV tx.AccountID db.accounts with
  | none => simp [hacc]
  | some account =>
    by_cases h1 : tx.type = Deposit
    · simp [hacc, h1, getKV_setKV_ne _ _ _ _ hne]
    · by_cases h2 : tx.type = Withdrawal
      · have hwd : ¬ Withdrawal = Deposit := by decide
        by_cases h3 : account.Balance < tx.Amount
        · simp [hacc, h1, h2, h3, hwd]
        · simp [hacc, h1, h2, h3, hwd, getKV_setKV_ne _ _ _ _ hne]
      · simp [hacc, h1, h2]

theorem ct_ok_hist (db : DB) (tx : Transaction) (id : String)
    (hok : (CreateTransaction db tx).2 = none) :
    histOf (CreateTransaction db tx).1 id =
      histOf db id ++ if tx.AccountID = id then [tx] else [] := by
  unfold CreateTransaction at hok ⊢
  cases hacc : getKV tx.AccountID db.accounts with
  | none => simp [hacc] at hok
  | some account =>
    simp only [hacc] at hok ⊢
    have step :
        ((getKV id (setKV tx.AccountID ((getKV tx.AccountID db.transactions).getD [] ++ [tx])
          db.transactions)).getD []) =
          (getKV id db.transactions).getD [] ++ if tx.AccountID = id then [tx] else [] := by
      by_cases hid : tx.AccountID = id
      · subst hid
        simp [getKV_setKV_same]
      · have hne : id ≠ tx.AccountID := fun hh => hid hh.symm
        simp [getKV_setKV_ne _ _ _ _ hne, hid]
    by_cases h1 : tx.type = Deposit
    · simpa [h1, histOf] using step
    · simp only [h1, if_false] at hok ⊢
      by_cases h2 : tx.type = Withdrawal
      · simp only [h2, if_true, ite_true] at hok ⊢
        by_cases h3 : account.Balance < tx.Amount
        · simp [h3] at hok
        · simpa [h3, histOf] using step
      · simp [h2] at hok

/-- A sample account used to instantiate theorems on concrete data. -/
def accA : Account := ⟨"a", "alice", 10⟩

/-- A second sample account. -/
def accB : Account := ⟨"b", "bob", 0⟩

/-- A sample store holding accounts `accA` and `accB`. -/
def dbEx : DB := CreateAccount (CreateAccount ⟨[], []⟩ accA) accB

/-- Claim C1: whenever CreateTransaction returns an error (AccountNotFound,
InsufficientBalance or UnknownError), the whole store state — every balance
and every transaction sequence — is exactly the state before the call; in
particular a Withdrawal whose amount exceeds the stored account's balance
fails with ErrInsufficientBalance and leaves the store unchanged. -/
theorem C1_error_no_partial_mutation (db : DB) (tx : Transaction) :
    (∀ e : APIError, (CreateTransaction db tx).2 = some e →
      (CreateTransaction db tx).1 = db) ∧
    (∀ acc : Account, getKV tx.AccountID db.accounts = some acc →
      tx.type = Withdrawal → acc.Balance < tx.Amount →
      CreateTransaction db tx = (db, some ErrInsufficientBalance)) := by
  constructor
  · intro e he
    exact ct_error_state db tx e he
  · intro acc hacc ht hlt
    have hwd : ¬ Withdrawal = Deposit := by decide
    unfold CreateTransaction
    simp [hacc, ht, hwd, hlt]

/-- Witness for C1: withdrawing 20 from an account holding 10 fails with
InsufficientBalance and returns the unchanged store. -/
theorem C1_error_no_partial_mutation_witness :
    getKV "a" dbEx.accounts = some accA ∧
    CreateTransaction dbEx ⟨"t1", "a", Withdrawal, 20, 0⟩ =
      (dbEx, some ErrInsufficientBalance) :=
  ⟨rfl, (C1_error_no_partial_mutation dbEx ⟨"t1", "a", Withdrawal, 20, 0⟩).2 accA rfl rfl
    (by norm_num [accA])⟩

/-- Claim C2: after any sequence of CreateTransaction calls, an account's
balance equals its initial balance plus the amounts of the committed
Deposits minus the amounts of the committed Withdrawals; failed calls
contribute nothing. -/
theorem C2_balance_is_sum_of_committed (db : DB) (id : String) (b : ℚ)
    (txs : List Transaction) (hb : balanceOf db id = some b) :
    balanceOf (runAll db txs).1 id =
      some (b + sumDeposits id (runAll db txs).2 -
        sumWithdrawals id (runAll db txs).2) := by
  rw [runAll_balance id txs db b hb, netOf_eq]
  congr 1
  ring

/-- A sample transaction batch: a deposit, a withdrawal, a withdrawal that
fails for insufficient balance, and a transaction of unknown type. -/
def txsC2 : List Transaction :=
  [⟨"t1", "a", Deposit, 5, 0⟩, ⟨"t2", "a", Withdrawal, 3, 1⟩,
   ⟨"t3", "a", Withdrawal, 100, 2⟩, ⟨"t4", "a", "bogus", 1, 3⟩]

/-- Witness for C2 on a concrete batch where two of four calls fail. -/
theorem C2_balance_is_sum_of_committed_witness :
    balanceOf dbEx "a" = some 10 ∧
    balanceOf (runAll dbEx txsC2).1 "a" =
      some (10 + sumDeposits "a" (runAll dbEx txsC2).2 -
        sumWithdrawals "a" (runAll dbEx txsC2).2) :=
  ⟨rfl, C2_balance_is_sum_of_committed dbEx "a" 10 txsC2 rfl⟩

/-- Claim C3: an account created with a nonnegative balance keeps a
nonnegative balance after any sequence of CreateTransaction calls whose
transactions all carry a positive amount. -/
theorem C3_balance_nonneg (db : DB) (acc : Account) (txs : List Transaction)
    (b1 : ℚ) (h0 : 0 ≤ acc.Balance) (hpos : ∀ tx ∈ txs, 0 < tx.Amount)
    (hb1 : balanceOf (runAll (CreateAccount db acc) txs).1 acc.ID = some b1) :
    0 ≤ b1 := by
  have hstart : balanceOf (CreateAccount db acc) acc.ID = some acc.Balance := by
    simp [balanceOf, CreateAccount, getKV_setKV_same]
  exact runAll_nonneg acc.ID txs (CreateAccount db acc) acc.Balance hstart h0 hpos b1 hb1

/-- Witness for C3: balance 10, withdraw 3, final balance 7 is nonnegative. -/
theorem C3_balance_nonneg_witness :
    (0 : ℚ) ≤ accA.Balance ∧
    balanceOf (runAll (CreateAccount ⟨[], []⟩ accA)
      [⟨"t1", "a", Withdrawal, 3, 0⟩]).1 "a" = some 7 ∧
    (0 : ℚ) ≤ 7 := by
  have hb1 : balanceOf (runAll (CreateAccount ⟨[], []⟩ accA)
      [⟨"t1", "a", Withdrawal, 3, 0⟩]).1 "a" = some 7 := by
    norm_num [runAll, CreateAccount, CreateTransaction, balanceOf, getKV, setKV,
      accA, Withdrawal, Deposit]
  exact ⟨by norm_num [accA], hb1,
    C3_balance_nonneg ⟨[], []⟩ accA [⟨"t1", "a", Withdrawal, 3, 0⟩] 7
      (by norm_num [accA]) (by decide) hb1⟩

/-- Claim C6: a Deposit against a stored account always succeeds, the new
balance is the old balance plus the amount, and the transaction is appended
to the account's history. -/
theorem C6_deposit_always_succeeds (db : DB) (tx : Transaction) (acc : Account)
    (hacc : getKV tx.AccountID db.accounts = some acc) (ht : tx.type = Deposit) :
    (CreateTransaction db tx).2 = none ∧
    balanceOf (CreateTransaction db tx).1 tx.AccountID =
      some (acc.Balance + tx.Amount) ∧
    histOf (CreateTransaction db tx).1 tx.AccountID =
      histOf db tx.AccountID ++ [tx] := by
  have hok := ct_deposit_ok db tx acc hacc ht
  refine ⟨hok, ?_, ?_⟩
  · have hb : balanceOf db tx.AccountID = some acc.Balance := by
      simp [balanceOf, hacc]
    have hstep := ct_ok_balance db tx tx.AccountID acc.Balance hok hb
    simpa [txDelta_deposit tx ht] using hstep
  · simpa using ct_ok_hist db tx tx.AccountID hok

/-- Witness for C6: a deposit of 5 into an account holding 0. -/
theorem C6_deposit_always_succeeds_witness :
    getKV "b" dbEx.accounts = some accB ∧
    ((CreateTransaction dbEx ⟨"t1", "b", Deposit, 5, 0⟩).2 = none ∧
     balanceOf (CreateTransaction dbEx ⟨"t1", "b", Deposit, 5, 0⟩).1 "b" =
       some (accB.Balance + 5) ∧
     histOf (CreateTransaction dbEx ⟨"t1", "b", Deposit, 5, 0⟩).1 "b" =
       histOf dbEx "b" ++ [⟨"t1", "b", Deposit, 5, 0⟩]) :=
  ⟨rfl, C6_deposit_always_succeeds dbEx ⟨"t1", "b", Deposit, 5, 0⟩ accB rfl rfl⟩

/-- Claim C7: a transaction whose type is neither Deposit nor Withdrawal
fails with ErrUnknown and leaves the store unchanged. -/
theorem C7_unknown_type_rejected (db : DB) (tx : Transaction) (acc : Account)
    (hacc : getKV tx.AccountID db.accounts = some acc)
    (h1 : tx.type ≠ Deposit) (h2 : tx.type ≠ Withdrawal) :
    CreateTransaction db tx = (db, some ErrUnknown) := by
  unfold CreateTransaction
  simp [hacc, h1, h2]

/-- Witness for C7: a transaction of type "bogus" is rejected. -/
theorem C7_unknown_type_rejected_witness :
    getKV "a" dbEx.accounts = some accA ∧
    CreateTransaction dbEx ⟨"t1", "a", "bogus", 5, 0⟩ = (dbEx, some ErrUnknown) :=
  ⟨rfl, C7_unknown_type_rejected dbEx ⟨"t1", "a", "bogus", 5, 0⟩ accA rfl
    (by decide) (by decide)⟩

/-- Claim C8: GetAccountByID and GetTransactionsByAccountID do not mutate
the store, and repeating either call with no intervening mutation returns
an identical result. -/
theorem C8_reads_idempotent (db : DB) (id : String) :
    (GetAccountByID db id).1 = db ∧
    (GetAccountByID (GetAccountByID db id).1 id).2 = (GetAccountByID db id).2 ∧
    (GetTransactionsByAccountID db id).1 = db ∧
    (GetTransactionsByAccountID (GetTransactionsByAccountID db id).1 id).2 =
      (GetTransactionsByAccountID db id).2 :=
  ⟨rfl, rfl, rfl, rfl⟩

/-- Claim C10: CreateAccount on an id already present overwrites the stored
account and resets its transaction history to empty; the operation has no
error path (its result type carries no error). -/
theorem C10_create_account_overwrites (db : DB) (acc old : Account)
    (_h : getKV acc.ID db.accounts = some old) :
    getKV acc.ID (CreateAccount db acc).accounts = some acc ∧
    getKV acc.ID (CreateAccount db acc).transactions = some ([] : List Transaction) :=
  ⟨by simp [CreateAccount, getKV_setKV_same],
   by simp [CreateAccount, getKV_setKV_same]⟩

/-- A store where account "a" has balance 15 and one recorded deposit. -/
def dbC10 : DB := (CreateTransaction dbEx ⟨"t1", "a", Deposit, 5, 0⟩).1

/-- Witness for C10: re-creating "a" replaces owner and balance and
discards the one recorded transaction. -/
theorem C10_create_account_overwrites_witness :
    getKV "a" dbC10.accounts = some ⟨"a", "alice", 15⟩ ∧
    (getKV "a" (CreateAccount dbC10 ⟨"a", "ann", 99⟩).accounts =
       some ⟨"a", "ann", 99⟩ ∧
     getKV "a" (CreateAccount dbC10 ⟨"a", "ann", 99⟩).transactions =
       some ([] : List Transaction)) :=
  ⟨by norm_num [dbC10, dbEx, accA, accB, CreateAccount, CreateTransaction, getKV,
      setKV, Deposit, Withdrawal],
   C10_create_account_overwrites dbC10 ⟨"a", "ann", 99⟩ ⟨"a", "alice", 15⟩
     (by norm_num [dbC10, dbEx, accA, accB, CreateAccount, CreateTransaction, getKV,
       setKV, Deposit, Withdrawal])⟩

/-- Claim C4: Transfer is exactly the composition of two CreateTransaction
calls — a Withdrawal of `amount` against `fromId` built from the first
generated id/timestamp, then a Deposit of `amount` against `toId` built
from the second. If the withdrawal call fails, Transfer propagates that
error, creates no deposit transaction and leaves the whole store (hence
every balance) unchanged; on full success with distinct accounts, the
source balance drops by `amount`, the destination balance rises by
`amount`, and each history gains exactly its one new record. -/
theorem C4_transfer_withdraw_then_deposit (db : DB) (fromId toId : String)
    (amount : ℚ) (wId dId : String) (wTs dTs : Nat) :
    (∀ e : APIError,
      (CreateTransaction db ⟨wId, fromId, Withdrawal, amount, wTs⟩).2 = some e →
      Transfer db fromId toId amount wId dId wTs dTs = (db, some e)) ∧
    (∀ fa ta : Account, fromId ≠ toId →
      getKV fromId db.accounts = some fa → getKV toId db.accounts = some ta →
      amount ≤ fa.Balance →
      (Transfer db fromId toId amount wId dId wTs dTs).2 = none ∧
      balanceOf (Transfer db fromId toId amount wId dId wTs dTs).1 fromId =
        some (fa.Balance - amount) ∧
      balanceOf (Transfer db fromId toId amount wId dId wTs dTs).1 toId =
        some (ta.Balance + amount) ∧
      histOf (Transfer db fromId toId amount wId dId wTs dTs).1 fromId =
        histOf db fromId ++ [⟨wId, fromId, Withdrawal, amount, wTs⟩] ∧
      histOf (Transfer db fromId toId amount wId dId wTs dTs).1 toId =
        histOf db toId ++ [⟨dId, toId, Deposit, amount, dTs⟩]) := by
  constructor
  · intro e he
    have hst := ct_error_state db ⟨wId, fromId, Withdrawal, amount, wTs⟩ e he
    simp [Transfer, he, hst]
  · intro fa ta hne hfrom hto hle
    have hnef : toId ≠ fromId := fun hh => hne hh.symm
    set wtx : Transaction := ⟨wId, fromId, Withdrawal, amount, wTs⟩ with hwtx
    set dtx : Transaction := ⟨dId, toId, Deposit, amount, dTs⟩ with hdtx
    have hok1 : (CreateTransaction db wtx).2 = none :=
      ct_withdraw_ok db wtx fa hfrom rfl hle
    set db1 := (CreateTransaction db wtx).1 with hdb1
    have hfa1 : balanceOf db1 fromId = some (fa.Balance - amount) := by
      have hb0 : balanceOf db fromId = some fa.Balance := by simp [balanceOf, hfrom]
      have hstep := ct_ok_balance db wtx fromId fa.Balance hok1 hb0
      simpa [txDelta_withdrawal wtx rfl, sub_eq_add_neg] using hstep
    have hta1 : getKV toId db1.accounts = some ta :=
      (ct_accounts_other db wtx toId hnef).trans hto
    have hok2 : (CreateTransaction db1 dtx).2 = none :=
      ct_deposit_ok db1 dtx ta hta1 rfl
    have hT : Transfer db fromId toId amount wId dId wTs dTs =
        ((CreateTransaction db1 dtx).1, none) := by
      simp only [Transfer, ← hwtx, ← hdtx, ← hdb1, hok1, hok2]
    refine ⟨by rw [hT], ?_, ?_, ?_, ?_⟩
    · rw [hT]
      have hstep := ct_ok_balance db1 dtx fromId (fa.Balance - amount) hok2 hfa1
      simpa [hnef] using hstep
    · rw [hT]
      have hbta : balanceOf db1 toId = some ta.Balance := by simp [balanceOf, hta1]
      have hstep := ct_ok_balance db1 dtx toId ta.Balance hok2 hbta
      simpa [txDelta_deposit dtx rfl] using hstep
    · rw [hT]
      have h1 := ct_ok_hist db wtx fromId hok1
      have h2 := ct_ok_hist db1 dtx fromId hok2
      simp only [← hdb1] at h1
      rw [h2, h1]
      simp [hnef]
    · rw [hT]
      have h1 := ct_ok_hist db wtx toId hok1
      have h2 := ct_ok_hist db1 dtx toId hok2
      simp only [← hdb1] at h1
      rw [h2, h1]
      simp [hne]

/-- Witness for C4: transferring 5 from "a" (balance 10) to "b" (balance 0)
succeeds, leaving balances 5 and 5 and one new record in each history. -/
theorem C4_transfer_withdraw_then_deposit_witness :
    ("a" : String) ≠ "b" ∧
    getKV "a" dbEx.accounts = some accA ∧
    getKV "b" dbEx.accounts = some accB ∧
    (5 : ℚ) ≤ accA.Balance ∧
    ((Transfer dbEx "a" "b" 5 "w1" "d1" 0 1).2 = none ∧
     balanceOf (Transfer dbEx "a" "b" 5 "w1" "d1" 0 1).1 "a" =
       some (accA.Balance - 5) ∧
     balanceOf (Transfer dbEx "a" "b" 5 "w1" "d1" 0 1).1 "b" =
       some (accB.Balance + 5) ∧
     histOf (Transfer dbEx "a" "b" 5 "w1" "d1" 0 1).1 "a" =
       histOf dbEx "a" ++ [⟨"w1", "a", Withdrawal, 5, 0⟩] ∧
     histOf (Transfer dbEx "a" "b" 5 "w1" "d1" 0 1).1 "b" =
       histOf dbEx "b" ++ [⟨"d1", "b", Deposit, 5, 1⟩]) :=
  ⟨by decide, rfl, rfl, by norm_num [accA],
   (C4_transfer_withdraw_then_deposit dbEx "a" "b" 5 "w1" "d1" 0 1).2 accA accB
     (by decide) rfl rfl (by norm_num [accA])⟩

/-- Claim C9: if Transfer's withdrawal succeeds but the destination account
does not exist, Transfer returns ErrAccountNotFound while the source
balance stays reduced by the amount and the withdrawal record stays in the
source history — no compensation is applied. -/
theorem C9_transfer_no_compensation (db : DB) (fromId toId : String)
    (amount : ℚ) (wId dId : String) (wTs dTs : Nat) (fa : Account)
    (hfrom : getKV fromId db.accounts = some fa) (hle : amount ≤ fa.Balance)
    (hto : getKV toId db.accounts = none) (hne : toId ≠ fromId) :
    (Transfer db fromId toId amount wId dId wTs dTs).2 = some ErrAccountNotFound ∧
    balanceOf (Transfer db fromId toId amount wId dId wTs dTs).1 fromId =
      some (fa.Balance - amount) ∧
    histOf (Transfer db fromId toId amount wId dId wTs dTs).1 fromId =
      histOf db fromId ++ [⟨wId, fromId, Withdrawal, amount, wTs⟩] := by
  set wtx : Transaction := ⟨wId, fromId, Withdrawal, amount, wTs⟩ with hwtx
  set dtx : Transaction := ⟨dId, toId, Deposit, amount, dTs⟩ with hdtx
  have hok1 : (CreateTransaction db wtx).2 = none :=
    ct_withdraw_ok db wtx fa hfrom rfl hle
  set db1 := (CreateTransaction db wtx).1 with hdb1
  have hto1 : getKV toId db1.accounts = none :=
    (ct_accounts_other db wtx toId hne).trans hto
  have e2 : CreateTransaction db1 dtx = (db1, some ErrAccountNotFound) := by
    unfold CreateTransaction
    simp [hto1]
  have hT : Transfer db fromId toId amount wId dId wTs dTs =
      (db1, some ErrAccountNotFound) := by
    simp only [Transfer, ← hwtx, ← hdtx, ← hdb1, hok1, e2]
  refine ⟨by rw [hT], ?_, ?_⟩
  · rw [hT]
    have hb0 : balanceOf db fromId = some fa.Balance := by simp [balanceOf, hfrom]
    have hstep := ct_ok_balance db wtx fromId fa.Balance hok1 hb0
    simpa [txDelta_withdrawal wtx rfl, sub_eq_add_neg] using hstep
  · rw [hT]
    have h1 := ct_ok_hist db wtx fromId hok1
    simp only [← hdb1] at h1
    rw [h1]
    simp

/-- A store holding only account "a". -/
def dbA : DB := CreateAccount ⟨[], []⟩ accA

/-- Witness for C9: transferring 5 from "a" to the nonexistent "zzz" fails
with AccountNotFound, yet "a" keeps the reduced balance and the recorded
withdrawal. -/
theorem C9_transfer_no_compensation_witness :
    getKV "a" dbA.accounts = some accA ∧
    (5 : ℚ) ≤ accA.Balance ∧
    getKV "zzz" dbA.accounts = none ∧
    ((Transfer dbA "a" "zzz" 5 "w1" "d1" 0 1).2 = some ErrAccountNotFound ∧
     balanceOf (Transfer dbA "a" "zzz" 5 "w1" "d1" 0 1).1 "a" =
       some (accA.Balance - 5) ∧
     histOf (Transfer dbA "a" "zzz" 5 "w1" "d1" 0 1).1 "a" =
       histOf dbA "a" ++ [⟨"w1", "a", Withdrawal, 5, 0⟩]) :=
  ⟨rfl, by norm_num [accA], rfl,
   C9_transfer_no_compensation dbA "a" "zzz" 5 "w1" "d1" 0 1 accA rfl
     (by norm_num [accA]) rfl (by decide)⟩

/-- Claim C5: GetTransactionsByAccountID returns the committed transactions
for an account in exactly commit order; an unknown id fails with
AccountNotFound, while a freshly created account with zero committed
transactions yields the empty sequence, not an error. -/
theorem C5_history_in_commit_order (db : DB) (id : String) (acc : Account)
    (txs : List Transaction) :
    (getKV id db.transactions = none →
      (GetTransactionsByAccountID db id).2 = Except.error ErrAccountNotFound) ∧
    ((GetTransactionsByAccountID (CreateAccount db acc) acc.ID).2 =
      Except.ok ([] : List Transaction)) ∧
    (∀ l : List Transaction, getKV id db.transactions = some l →
      (GetTransactionsByAccountID (runAll db txs).1 id).2 =
        Except.ok (l ++ (runAll db txs).2.filter (fun t => t.AccountID == id))) := by
  refine ⟨?_, ?_, ?_⟩
  · intro h
    simp [GetTransactionsByAccountID, h]
  · simp [GetTransactionsByAccountID, CreateAccount, getKV_setKV_same]
  · intro l hl
    have hkey := runAll_txkey id txs db l hl
    simp [GetTransactionsByAccountID, hkey]

/-- Witness for C5: unknown id "zzz" errors, a fresh account reads back an
empty history, and after a concrete batch the history of "a" is exactly
its committed subsequence in order. -/
theorem C5_history_in_commit_order_witness :
    getKV "zzz" dbEx.transactions = none ∧
    (GetTransactionsByAccountID dbEx "zzz").2 = Except.error ErrAccountNotFound ∧
    (GetTransactionsByAccountID (CreateAccount dbEx accA) "a").2 =
      Except.ok ([] : List Transaction) ∧
    getKV "a" dbEx.transactions = some ([] : List Transaction) ∧
    (GetTransactionsByAccountID (runAll dbEx txsC2).1 "a").2 =
      Except.ok (([] : List Transaction) ++
        (runAll dbEx txsC2).2.filter (fun t => t.AccountID == "a")) :=
  ⟨rfl, (C5_history_in_commit_order dbEx "zzz" accA txsC2).1 rfl,
   (C5_history_in_commit_order dbEx "zzz" accA txsC2).2.1, rfl,
   (C5_history_in_commit_order dbEx "a" accA txsC2).2.2 [] rfl⟩

end Bank
